import Mathlib

/-
  Verification of the blinkrs command-encoding core.

  The encoder lives in src/message.rs (`Message::buffer`, `LedNum::as_u8`,
  `impl From<&str> for Message`). Bytes are modelled as `Nat` with explicit
  truncation (`% 2^16`, `% 2^8`) wherever the Rust code performs an `as`
  cast, and the `checked_*` operations are modelled as `Option`-returning
  functions exactly as in `core`, combined with `unwrap_or(0)` (here
  `Option.getD _ 0`).
-/

namespace Blinkrs

/-- Modelled from the spec: `src/constants.rs` is absent from the sources;
the opcode table in section 4.2 gives the Fade command the opcode 0x63. -/
def FADE_COMMAND_ACTION : Nat := 0x63

/-- Modelled from the spec: `src/constants.rs` is absent from the sources;
the opcode table in section 4.2 gives the Immediate command the opcode 0x6e. -/
def IMMEDIATE_COMMAND_ACTION : Nat := 0x6e

/-- Modelled from the spec: `src/color.rs` is absent from the sources.
Per sections 3 and 4.1, a Color is either a named value from a fixed palette
(at minimum red, green, blue, off) or an explicit 3-tuple of unsigned 8-bit
channel values (the `Color::Three` constructor used by `src/message.rs`). -/
inductive Color where
  | Red : Color
  | Green : Color
  | Blue : Color
  | Off : Color
  | Three : Nat → Nat → Nat → Color
deriving DecidableEq

/-- Modelled from the spec: the canonical RGB triples of the palette
(section 8: red maps to (255,0,0), green to (0,255,0), blue to (0,0,255),
off to (0,0,0)); an explicit triple is returned verbatim (section 4.1). -/
def Color.rgb : Color → Nat × Nat × Nat
  | .Red => (0xff, 0x00, 0x00)
  | .Green => (0x00, 0xff, 0x00)
  | .Blue => (0x00, 0x00, 0xff)
  | .Off => (0x00, 0x00, 0x00)
  | .Three r g b => (r, g, b)

/-- Modelled from the spec: color-name resolution (section 4.1) maps the
recognized names to their palette values and every unrecognized string to
(0,0,0); it is total and never signals an error. -/
def Color.fromStr (input : String) : Color :=
  if input = "red" then Color.Red
  else if input = "green" then Color.Green
  else if input = "blue" then Color.Blue
  else if input = "off" then Color.Off
  else Color.Three 0 0 0

/-- `LedNum` from src/message.rs: which LED to use on the m2 variant. -/
inductive LedNum where
  | All : LedNum
  | Led1 : LedNum
  | Led2 : LedNum
deriving DecidableEq

/-- `LedNum::as_u8` from src/message.rs: the u8 used in the blink1 USB
protocol. -/
def LedNum.as_u8 : LedNum → Nat
  | .All => 0
  | .Led1 => 1
  | .Led2 => 2

/-- Rust `std::time::Duration`, abstracted by the value its `as_millis`
accessor returns: the whole number of milliseconds, which is exact because
the millisecond count of any `Duration` fits in `u128`. -/
structure Duration where
  as_millis : Nat
deriving DecidableEq

/-- Rust `checked_div` on unsigned integers: `none` exactly when the divisor
is zero, otherwise the floor quotient. -/
def checked_div (a b : Nat) : Option Nat :=
  if b = 0 then none else some (a / b)

/-- Rust `checked_rem` on unsigned integers: `none` exactly when the divisor
is zero, otherwise the remainder. -/
def checked_rem (a b : Nat) : Option Nat :=
  if b = 0 then none else some (a % b)

/-- Rust `u16::checked_shr`: `none` exactly when the shift amount is at
least the bit width 16, otherwise the logical right shift. -/
def u16_checked_shr (a n : Nat) : Option Nat :=
  if n < 16 then some (a >>> n) else none

/-- Rust `as u16` cast from a wider unsigned integer: truncation mod 2^16. -/
def toU16 (a : Nat) : Nat := a % 65536

/-- Rust `as u8` cast from a wider unsigned integer: truncation mod 2^8. -/
def toU8 (a : Nat) : Nat := a % 256

/-- `Message` from src/message.rs: a command processable by the blink1. -/
inductive Message where
  | Off : Message
  | Fade : Color → Duration → LedNum → Message
  | Immediate : Color → Message
  | SetLinePattern : Color → Duration → Nat → Message
  | SetLedNum : LedNum → Message
  | PlayLoop : Bool → Nat → Nat → Nat → Message

/-- Weight justifying that the Off arm of `Message.buffer` may delegate to
the Immediate arm. -/
def Message.offWeight : Message → Nat
  | .Off => 1
  | _ => 0

/-- `Message::buffer` from src/message.rs: the 8-byte buffer written to the
blink(1) usb device. The `PlayLoop` fields are, in order, `on`, `start_pos`,
`end_pos`, `loop_count`. -/
def Message.buffer (m : Message) : List Nat :=
  match m with
  | .Off => (Message.Immediate (Color.Three 0x00 0x00 0x00)).buffer
  | .Fade color duration ledn =>
      match color.rgb with
      | (r, g, b) =>
        let dms := toU16 ((checked_div duration.as_millis 10).getD 0)
        let th := toU8 ((u16_checked_shr dms 8).getD 0)
        let tl := toU8 ((checked_rem dms 0xff).getD 0)
        [0x01, FADE_COMMAND_ACTION, r, g, b, th, tl, ledn.as_u8]
  | .Immediate color =>
      match color.rgb with
      | (r, g, b) => [0x01, IMMEDIATE_COMMAND_ACTION, r, g, b, 0x00, 0x00, 0x00]
  | .SetLinePattern color duration pos =>
      match color.rgb with
      | (r, g, b) =>
        let dms := toU16 ((checked_div duration.as_millis 10).getD 0)
        let th := toU8 ((u16_checked_shr dms 8).getD 0)
        let tl := toU8 ((checked_rem dms 0xff).getD 0)
        [0x01, 80, r, g, b, th, tl, pos]
  | .SetLedNum ledn => [0x01, 108, ledn.as_u8, 0, 0, 0, 0, 0]
  | .PlayLoop onFlag start_pos end_pos loop_count =>
      let on_u8 := if onFlag then 1 else 0
      [0x01, 112, on_u8, start_pos, end_pos, loop_count, 0, 0]
termination_by m.offWeight
decreasing_by simp [Message.offWeight]

/-- `impl From<&str> for Message` from src/message.rs. -/
def Message.fromStr (input : String) : Message :=
  Message.Immediate (Color.fromStr input)

/-- C1: for every Fade and SetLinePattern command, the two time bytes are
computed from the duration as ticks = floor(duration_ms / 10) truncated to
an unsigned 16-bit quantity, with byte 5 (time_hi) = ticks >>> 8 and byte 6
(time_lo) = ticks % 255 — the modulus is 255, not 256. -/
theorem time_bytes_from_ticks (c : Color) (d : Duration) (l : LedNum) (p : Nat) :
    (Message.Fade c d l).buffer.getD 5 0 = ((d.as_millis / 10) % 65536) >>> 8 ∧
    (Message.Fade c d l).buffer.getD 6 0 = ((d.as_millis / 10) % 65536) % 255 ∧
    (Message.SetLinePattern c d p).buffer.getD 5 0 = ((d.as_millis / 10) % 65536) >>> 8 ∧
    (Message.SetLinePattern c d p).buffer.getD 6 0 = ((d.as_millis / 10) % 65536) % 255 := by
  rcases h : c.rgb with ⟨r, g, b⟩
  simp [Message.buffer, h, checked_div, checked_rem, u16_checked_shr, toU16,
    toU8, Nat.shiftRight_eq_div_pow]
  omega

/-- C2: for every duration fed to Fade or SetLinePattern the time-byte
computation is total — every checked operation it uses succeeds, so the
unwrap_or(0) defaults are never anything but the checked result — the two
time bytes always lie in [0, 255], and a 0 ms duration yields
time_hi = time_lo = 0. -/
theorem time_bytes_total_bounded (c : Color) (d : Duration) (l : LedNum) (p : Nat) :
    ((checked_div d.as_millis 10).isSome ∧
     (u16_checked_shr (toU16 ((checked_div d.as_millis 10).getD 0)) 8).isSome ∧
     (checked_rem (toU16 ((checked_div d.as_millis 10).getD 0)) 0xff).isSome) ∧
    ((Message.Fade c d l).buffer.getD 5 0 ≤ 255 ∧
     (Message.Fade c d l).buffer.getD 6 0 ≤ 255 ∧
     (Message.SetLinePattern c d p).buffer.getD 5 0 ≤ 255 ∧
     (Message.SetLinePattern c d p).buffer.getD 6 0 ≤ 255) ∧
    ((Message.Fade c ⟨0⟩ l).buffer.getD 5 0 = 0 ∧
     (Message.Fade c ⟨0⟩ l).buffer.getD 6 0 = 0 ∧
     (Message.SetLinePattern c ⟨0⟩ p).buffer.getD 5 0 = 0 ∧
     (Message.SetLinePattern c ⟨0⟩ p).buffer.getD 6 0 = 0) := by
  rcases h : c.rgb with ⟨r, g, b⟩
  refine ⟨⟨?_, ?_, ?_⟩, ?_⟩ <;>
    simp [Message.buffer, h, checked_div, checked_rem, u16_checked_shr, toU16,
      toU8, Nat.shiftRight_eq_div_pow]
  omega

/-- C3: encoding Fade with explicit RGB (10,20,30), a 100 ms duration and
Led1 yields exactly the 8 bytes [0x01, 0x63, 10, 20, 30, 0, 10, 1]. -/
theorem fade_rgb_100ms_led1_frame :
    (Message.Fade (Color.Three 10 20 30) ⟨100⟩ LedNum.Led1).buffer
      = [0x01, 0x63, 10, 20, 30, 0, 10, 1] := by
  simp [Message.buffer, Color.rgb, checked_div, checked_rem, u16_checked_shr,
    toU16, toU8, LedNum.as_u8, FADE_COMMAND_ACTION]

/-- C4: every Message variant, for every payload, encodes to exactly 8
bytes with byte 0 equal to 0x01. -/
theorem frame_length_and_report_id (m : Message) :
    m.buffer.length = 8 ∧ m.buffer.getD 0 0 = 0x01 := by
  cases m with
  | Off => simp [Message.buffer, Color.rgb]
  | Fade c d l =>
      rcases h : c.rgb with ⟨r, g, b⟩
      simp [Message.buffer, h]
  | Immediate c =>
      rcases h : c.rgb with ⟨r, g, b⟩
      simp [Message.buffer, h]
  | SetLinePattern c d p =>
      rcases h : c.rgb with ⟨r, g, b⟩
      simp [Message.buffer, h]
  | SetLedNum l => simp [Message.buffer]
  | PlayLoop onFlag sp ep lc => simp [Message.buffer]

/-- C5: the encoding of Off is byte-for-byte the encoding of Immediate with
RGB (0,0,0), and bytes 2..5 of the Off frame are (0,0,0). -/
theorem off_is_immediate_black :
    Message.Off.buffer = (Message.Immediate (Color.Three 0 0 0)).buffer ∧
    Message.Off.buffer.getD 2 0 = 0 ∧
    Message.Off.buffer.getD 3 0 = 0 ∧
    Message.Off.buffer.getD 4 0 = 0 := by
  refine ⟨?_, ?_, ?_, ?_⟩ <;> simp [Message.buffer, Color.rgb]

/-- C6: color resolution from a string is total — red, green, blue and off
resolve to their canonical triples, every unrecognized string resolves to
(0,0,0), and building a Message from any string places the resolved triple
at bytes 2..4 of the encoded frame. -/
theorem color_resolve_total (s : String)
    (h : s ≠ "red" ∧ s ≠ "green" ∧ s ≠ "blue" ∧ s ≠ "off") :
    (Color.fromStr "red").rgb = (255, 0, 0) ∧
    (Color.fromStr "green").rgb = (0, 255, 0) ∧
    (Color.fromStr "blue").rgb = (0, 0, 255) ∧
    (Color.fromStr "off").rgb = (0, 0, 0) ∧
    (Color.fromStr s).rgb = (0, 0, 0) ∧
    ∀ t : String,
      ((Message.fromStr t).buffer.getD 2 0,
       (Message.fromStr t).buffer.getD 3 0,
       (Message.fromStr t).buffer.getD 4 0) = (Color.fromStr t).rgb := by
  obtain ⟨h1, h2, h3, h4⟩ := h
  refine ⟨by decide, by decide, by decide, by decide, ?_, ?_⟩
  · simp [Color.fromStr, h1, h2, h3, h4, Color.rgb]
  · intro t
    rcases ht : (Color.fromStr t).rgb with ⟨r, g, b⟩
    simp [Message.fromStr, Message.buffer, ht]

/-- C6 witness: the unrecognized string "purple" resolves to (0,0,0). -/
theorem color_resolve_total_witness :
    (Color.fromStr "purple").rgb = (0, 0, 0) :=
  (color_resolve_total "purple" (by decide)).2.2.2.2.1

/-- C7: for every on flag, start position, end position and loop count,
PlayLoop encodes to [0x01, 0x70, on(1/0), start_pos, end_pos, loop_count,
0, 0]; in particular with on, positions 0 and 5, and count 3 it encodes to
[0x01, 0x70, 1, 0, 5, 3, 0, 0]. -/
theorem playloop_frame (onFlag : Bool) (sp ep lc : Nat) :
    (Message.PlayLoop onFlag sp ep lc).buffer
      = [0x01, 0x70, if onFlag then 1 else 0, sp, ep, lc, 0, 0] ∧
    (Message.PlayLoop true 0 5 3).buffer = [0x01, 0x70, 1, 0, 5, 3, 0, 0] := by
  constructor <;> simp [Message.buffer]

/-- C8: for every LED selector, SetLedNum encodes to an 8-byte frame with
opcode 0x6c at byte 1, the wire value of the selector at byte 2, and bytes
3 through 7 all zero. -/
theorem setlednum_frame (l : LedNum) :
    (Message.SetLedNum l).buffer = [0x01, 0x6c, l.as_u8, 0, 0, 0, 0, 0] := by
  simp [Message.buffer]

/-- C9: the LED-selector-to-wire-value conversion is a bijection onto
{0, 1, 2}: All maps to 0, Led1 to 1, Led2 to 2, and distinct selectors map
to distinct values. -/
theorem lednum_as_u8_bijection :
    LedNum.All.as_u8 = 0 ∧ LedNum.Led1.as_u8 = 1 ∧ LedNum.Led2.as_u8 = 2 ∧
    ∀ a b : LedNum, a.as_u8 = b.as_u8 → a = b := by
  refine ⟨rfl, rfl, rfl, ?_⟩
  intro a b hab
  cases a <;> cases b <;> simp_all [LedNum.as_u8]

/-- C9 witness: the injectivity clause applied at Led1, Led1. -/
theorem lednum_as_u8_bijection_witness : LedNum.Led1 = LedNum.Led1 :=
  lednum_as_u8_bijection.2.2.2 LedNum.Led1 LedNum.Led1 (by decide)

/-- C10: for every duration, the low time byte (byte 6) of an encoded Fade
or SetLinePattern frame lies in [0, 254]: as a remainder modulo 255 it can
never be 255. -/
theorem time_lo_below_255 (c : Color) (d : Duration) (l : LedNum) (p : Nat) :
    (Message.Fade c d l).buffer.getD 6 0 ≤ 254 ∧
    (Message.SetLinePattern c d p).buffer.getD 6 0 ≤ 254 := by
  rcases h : c.rgb with ⟨r, g, b⟩
  simp [Message.buffer, h, checked_div, checked_rem, toU16, toU8]
  omega

end Blinkrs
